import Mathlib

/-!
Verification of the SquashFS read-only decoder core
(`sys/fs/squashfs/squashfs_block.c`, `sys/fs/squashfs/squashfs_inode.c`).

The C sources are shallowly embedded: machine integers become `Nat` (with
explicit masking / `% 2 ^ w` where the C width matters), out-parameters
become returned values, `sqsh_err` results become `Except Unit` (`.ok`
models `SQFS_OK`, `.error ()` models `SQFS_ERR`), and the backing store of
a mount is a byte-addressed function together with its length.  Function
and constant names follow the C source.

The headers `squashfs.h` / `squashfs_block.h` (format constants and on-disk
record layouts) are not part of the corpus; those constants and layouts are
modelled from the specification of the on-disk format and are marked as
such below.
-/

namespace Squashfs

/-- Modelled from the spec: `squashfs.h` is missing from the corpus.
Metadata block header, bit 15 (spec section 3: "bit 15 is the
uncompressed flag"). -/
def SQUASHFS_COMPRESSED_BIT : Nat := 0x8000

/-- Modelled from the spec: `squashfs.h` is missing from the corpus.
Data block header flag, bit 24 (spec section 3: "bit 24 is the
uncompressed flag"). -/
def SQUASHFS_COMPRESSED_BIT_BLOCK : Nat := 0x1000000

/-- Modelled from the spec: `squashfs.h` is missing from the corpus.
Decompressed capacity of one metadata block (spec section 3:
"up to 8192 decompressed bytes"). -/
def SQUASHFS_METADATA_SIZE : Nat := 8192

/-- `sqsh_metadata_header` from `squashfs_block.c`: split a 16-bit
metadata block header into the compressed flag and the on-disk payload
size.  The C out-parameters `*compressed` / `*size` are returned as a
pair.  `size` is a `uint16_t`, so the complement mask of `0x8000` is
`0x7fff`. -/
def sqsh_metadata_header (hdr : Nat) : Bool × Nat :=
  -- Bit is set if block is uncompressed
  let compressed : Bool := (hdr &&& SQUASHFS_COMPRESSED_BIT) == 0
  let size := hdr &&& 0x7fff
  (compressed, if size = 0 then SQUASHFS_COMPRESSED_BIT else size)

/-- `sqsh_data_header` from `squashfs_block.c`: split a 32-bit data block
header.  `~SQUASHFS_COMPRESSED_BIT_BLOCK` on `uint32_t` is
`0xFEFFFFFF`. -/
def sqsh_data_header (hdr : Nat) : Bool × Nat :=
  ((hdr &&& SQUASHFS_COMPRESSED_BIT_BLOCK) == 0, hdr &&& 0xFEFFFFFF)

/-- Bit-range extraction: a conjunction with a shifted mask reads the
bits above the shift. -/
theorem and_shiftLeft_mask (x y k : Nat) :
    x &&& (y <<< k) = ((x >>> k) &&& y) <<< k := by
  apply Nat.eq_of_testBit_eq
  intro i
  simp only [Nat.testBit_and, Nat.testBit_shiftLeft, Nat.testBit_shiftRight]
  by_cases hk : k ≤ i
  · simp [hk, Nat.add_sub_cancel' hk, Bool.and_left_comm]
  · simp [hk]

theorem and_hex7fff_eq_mod (x : Nat) : x &&& 0x7fff = x % 2 ^ 15 := by
  have h : (0x7fff : Nat) = 2 ^ 15 - 1 := by norm_num
  rw [h, Nat.and_pow_two_sub_one_eq_mod]

theorem and_hexfff_eq_mod (x : Nat) : x &&& 0xfff = x % 2 ^ 12 := by
  have h : (0xfff : Nat) = 2 ^ 12 - 1 := by norm_num
  rw [h, Nat.and_pow_two_sub_one_eq_mod]

theorem and_hexff_eq_mod (x : Nat) : x &&& 0xff = x % 2 ^ 8 := by
  have h : (0xff : Nat) = 2 ^ 8 - 1 := by norm_num
  rw [h, Nat.and_pow_two_sub_one_eq_mod]

theorem and_hexffffff_eq_mod (x : Nat) : x &&& 0xFFFFFF = x % 2 ^ 24 := by
  have h : (0xFFFFFF : Nat) = 2 ^ 24 - 1 := by norm_num
  rw [h, Nat.and_pow_two_sub_one_eq_mod]

/-- The mask `0xfff00` extracts bits 8..19: arithmetic form. -/
theorem and_hexfff00_eq (x : Nat) : x &&& 0xfff00 = x / 2 ^ 8 % 2 ^ 12 * 2 ^ 8 := by
  have h : (0xfff00 : Nat) = 0xfff <<< 8 := by decide
  rw [h, and_shiftLeft_mask, Nat.shiftRight_eq_div_pow, and_hexfff_eq_mod,
    Nat.shiftLeft_eq]

/-- The mask `0xFEFFFFFF` (all 32-bit values with bit 24 cleared):
arithmetic form. -/
theorem and_hexFEFFFFFF_eq (x : Nat) :
    x &&& 0xFEFFFFFF = 2 ^ 25 * (x / 2 ^ 25 % 2 ^ 7) + x % 2 ^ 24 := by
  have h : (0xFEFFFFFF : Nat) = 0xFFFFFF ||| 0x7F <<< 25 := by decide
  rw [h, Nat.and_or_distrib_left, and_hexffffff_eq_mod, and_shiftLeft_mask,
    Nat.shiftRight_eq_div_pow]
  have h7f : x / 2 ^ 25 &&& 0x7F = x / 2 ^ 25 % 2 ^ 7 := by
    have h2 : (0x7F : Nat) = 2 ^ 7 - 1 := by norm_num
    rw [h2, Nat.and_pow_two_sub_one_eq_mod]
  rw [h7f, Nat.shiftLeft_eq]
  have hlt : x % 2 ^ 24 < 2 ^ 25 := lt_trans (Nat.mod_lt _ (by norm_num)) (by norm_num)
  rw [Nat.mul_comm (x / 2 ^ 25 % 2 ^ 7) (2 ^ 25), Nat.or_comm,
    ← Nat.mul_add_lt_is_or hlt]

/-- A number conjoined with a single bit is zero exactly when that bit is
clear. -/
theorem and_two_pow_eq_zero_iff (x n : Nat) :
    x &&& 2 ^ n = 0 ↔ x.testBit n = false := by
  rw [Nat.and_two_pow]
  cases h : x.testBit n <;> simp [h]

/-- C2: for every 16-bit metadata-block header value `h`, the decoder
returns `compressed = false` exactly when bit 15 of `h` is set, and
returns `size = h` with bit 15 masked off (`h % 2 ^ 15`), except that a
masked size of zero becomes `0x8000`. -/
theorem metadata_header_spec (h : Nat) (hh : h < 2 ^ 16) :
    ((sqsh_metadata_header h).1 = false ↔ h.testBit 15 = true) ∧
    (sqsh_metadata_header h).2 =
      (if h % 2 ^ 15 = 0 then 0x8000 else h % 2 ^ 15) := by
  constructor
  · show ((h &&& SQUASHFS_COMPRESSED_BIT) == 0) = false ↔ h.testBit 15 = true
    have hbit : h &&& SQUASHFS_COMPRESSED_BIT = (h.testBit 15).toNat * 2 ^ 15 := by
      have hc : SQUASHFS_COMPRESSED_BIT = 2 ^ 15 := by decide
      rw [hc, Nat.and_two_pow]
    rw [hbit]
    rcases hb : h.testBit 15 with _ | _
    · simp
    · norm_num
  · show (if h &&& 0x7fff = 0 then SQUASHFS_COMPRESSED_BIT else h &&& 0x7fff) =
      (if h % 2 ^ 15 = 0 then 0x8000 else h % 2 ^ 15)
    rw [and_hex7fff_eq_mod]
    rfl

/-- Witness for the C2 theorem at header value `0x4000`. -/
theorem metadata_header_spec_witness :
    ((sqsh_metadata_header 0x4000).1 = false ↔ (0x4000 : Nat).testBit 15 = true) ∧
    (sqsh_metadata_header 0x4000).2 =
      (if 0x4000 % 2 ^ 15 = 0 then 0x8000 else 0x4000 % 2 ^ 15) :=
  metadata_header_spec 0x4000 (by norm_num)

/-- C5 counterexample: header `0x0000` has bit 15 clear, so the decoder
reports the block as compressed; the claim that it yields `0x8000` raw
payload bytes with `compressed = false` is false. -/
theorem metadata_header_zero_cex :
    ¬((sqsh_metadata_header 0).1 = false ∧ (sqsh_metadata_header 0).2 = 0x8000) := by
  decide

/-- C5 amended: decoding the metadata-block header value `0x0000` yields
an effective size of `0x8000` with the compressed flag equal to `true`
(bit 15 clear means the payload is compressed). -/
theorem metadata_header_zero : sqsh_metadata_header 0 = (true, 0x8000) := by
  decide

/-- C6 counterexample: at `h = 0x02000000` (bit 25 set) the data-header
decoder keeps bit 25 in the size, so the size is not the low 24 bits of
`h` (which are zero). -/
theorem data_header_cex :
    ¬((sqsh_data_header 0x02000000).2 = 0x02000000 % 2 ^ 24) := by
  decide

/-- C6 amended: for every 32-bit data-block header `h`, the decoder
returns `compressed = false` exactly when bit 24 of `h` is set, and
returns a size equal to `h` with only bit 24 cleared
(`h % 2 ^ 24 + 2 ^ 25 * (h / 2 ^ 25)`); whenever bits 25..31 of `h` are
clear this equals the low 24 bits of `h`. -/
theorem data_header_spec (h : Nat) (hh : h < 2 ^ 32) :
    ((sqsh_data_header h).1 = false ↔ h.testBit 24 = true) ∧
    (sqsh_data_header h).2 = h % 2 ^ 24 + 2 ^ 25 * (h / 2 ^ 25) ∧
    (h < 2 ^ 25 → (sqsh_data_header h).2 = h % 2 ^ 24) := by
  refine ⟨?_, ?_, ?_⟩
  · show ((h &&& SQUASHFS_COMPRESSED_BIT_BLOCK) == 0) = false ↔ h.testBit 24 = true
    have hbit : h &&& SQUASHFS_COMPRESSED_BIT_BLOCK = (h.testBit 24).toNat * 2 ^ 24 := by
      have hc : SQUASHFS_COMPRESSED_BIT_BLOCK = 2 ^ 24 := by decide
      rw [hc, Nat.and_two_pow]
    rw [hbit]
    rcases hb : h.testBit 24 with _ | _
    · simp
    · norm_num
  · show h &&& 0xFEFFFFFF = h % 2 ^ 24 + 2 ^ 25 * (h / 2 ^ 25)
    rw [and_hexFEFFFFFF_eq]
    have hdiv : h / 2 ^ 25 < 2 ^ 7 := by omega
    rw [Nat.mod_eq_of_lt hdiv]
    omega
  · intro h25
    show h &&& 0xFEFFFFFF = h % 2 ^ 24
    rw [and_hexFEFFFFFF_eq]
    have : h / 2 ^ 25 = 0 := Nat.div_eq_of_lt h25
    rw [this]
    simp

/-- Witness for the C6 amended theorem at `h = 0x02000000`. -/
theorem data_header_spec_witness :
    ((sqsh_data_header 0x02000000).1 = false ↔ (0x02000000 : Nat).testBit 24 = true) ∧
    (sqsh_data_header 0x02000000).2 =
      0x02000000 % 2 ^ 24 + 2 ^ 25 * (0x02000000 / 2 ^ 25) ∧
    ((0x02000000 : Nat) < 2 ^ 25 → (sqsh_data_header 0x02000000).2 = 0x02000000 % 2 ^ 24) :=
  data_header_spec 0x02000000 (by norm_num)

/-! ### Device rdev packing (`sqsh_init_dev_inode` / `sqsh_init_ldev_inode`) -/

/-- Major-number extraction performed by `sqsh_init_dev_inode` and
`sqsh_init_ldev_inode`: `(temp.rdev >> 8) & 0xfff`. -/
def sqsh_dev_major (rdev : Nat) : Nat := (rdev >>> 8) &&& 0xfff

/-- Minor-number extraction performed by `sqsh_init_dev_inode` and
`sqsh_init_ldev_inode`: `(temp.rdev & 0xff) | ((temp.rdev >> 12) & 0xfff00)`. -/
def sqsh_dev_minor (rdev : Nat) : Nat :=
  (rdev &&& 0xff) ||| ((rdev >>> 12) &&& 0xfff00)

/-- The on-disk rdev encoder, as given by the specification of the image
producer (the encoder itself is outside this corpus). -/
def sqsh_dev_pack (major minor : Nat) : Nat :=
  ((major &&& 0xfff) <<< 8) ||| (minor &&& 0xff) ||| ((minor &&& 0xfff00) <<< 12)

theorem dev_pack_arith (M m : Nat) (hM : M < 2 ^ 12) (hm : m < 2 ^ 20) :
    sqsh_dev_pack M m = 2 ^ 20 * (m / 2 ^ 8) + (2 ^ 8 * M + m % 2 ^ 8) := by
  unfold sqsh_dev_pack
  rw [and_hexfff_eq_mod M, Nat.mod_eq_of_lt hM, and_hexff_eq_mod, and_hexfff00_eq]
  have hmid : m / 2 ^ 8 % 2 ^ 12 = m / 2 ^ 8 := Nat.mod_eq_of_lt (by omega)
  rw [hmid, Nat.shiftLeft_eq, Nat.shiftLeft_eq]
  have hr : m % 2 ^ 8 < 2 ^ 8 := Nat.mod_lt m (by norm_num)
  have h1 : M * 2 ^ 8 ||| m % 2 ^ 8 = 2 ^ 8 * M + m % 2 ^ 8 := by
    rw [Nat.mul_comm, ← Nat.mul_add_lt_is_or hr]
  rw [h1]
  have hc : m / 2 ^ 8 * 2 ^ 8 * 2 ^ 12 = 2 ^ 20 * (m / 2 ^ 8) := by ring
  rw [hc]
  have h2 : 2 ^ 8 * M + m % 2 ^ 8 < 2 ^ 20 := by omega
  rw [Nat.or_comm, ← Nat.mul_add_lt_is_or h2]

/-- C8: the device rdev encoding round-trips.  For every major below
`2 ^ 12` and minor below `2 ^ 20`, decoding the packed rdev with the
extraction of `sqsh_init_dev_inode` / `sqsh_init_ldev_inode` yields the
original pair. -/
theorem dev_rdev_roundtrip (M m : Nat) (hM : M < 2 ^ 12) (hm : m < 2 ^ 20) :
    sqsh_dev_major (sqsh_dev_pack M m) = M ∧
    sqsh_dev_minor (sqsh_dev_pack M m) = m := by
  have hq : m / 2 ^ 8 < 2 ^ 12 := by omega
  have hr : m % 2 ^ 8 < 2 ^ 8 := Nat.mod_lt m (by norm_num)
  have hpack := dev_pack_arith M m hM hm
  constructor
  · unfold sqsh_dev_major
    rw [Nat.shiftRight_eq_div_pow, and_hexfff_eq_mod, hpack]
    omega
  · unfold sqsh_dev_minor
    rw [and_hexff_eq_mod, Nat.shiftRight_eq_div_pow, and_hexfff00_eq, hpack]
    have hlow : (2 ^ 20 * (m / 2 ^ 8) + (2 ^ 8 * M + m % 2 ^ 8)) % 2 ^ 8 = m % 2 ^ 8 := by
      omega
    have hhigh : (2 ^ 20 * (m / 2 ^ 8) + (2 ^ 8 * M + m % 2 ^ 8)) / 2 ^ 12 / 2 ^ 8 % 2 ^ 12
        = m / 2 ^ 8 := by
      rw [Nat.div_div_eq_div_mul]
      omega
    rw [hlow, hhigh]
    have h1 : m / 2 ^ 8 * 2 ^ 8 = 2 ^ 8 * (m / 2 ^ 8) := by ring
    rw [h1, Nat.or_comm, ← Nat.mul_add_lt_is_or hr]
    omega

/-- Witness for the C8 theorem at major `0xABC`, minor `0xDEF12`. -/
theorem dev_rdev_roundtrip_witness :
    sqsh_dev_major (sqsh_dev_pack 0xABC 0xDEF12) = 0xABC ∧
    sqsh_dev_minor (sqsh_dev_pack 0xABC 0xDEF12) = 0xDEF12 :=
  dev_rdev_roundtrip 0xABC 0xDEF12 (by norm_num) (by norm_num)

/-! ### Mounts, blocks and the metadata cursor (`squashfs_block.c`) -/

/-- `struct sqsh_block_run`: a metadata cursor, an absolute byte offset
of a metadata block header plus an offset into its decompressed
payload. -/
structure sqsh_block_run where
  block : Nat
  offset : Nat
deriving Repr, DecidableEq, Inhabited

/-- `struct sqsh_block`: a decoded block; `data` is the (decompressed)
payload and `size` the value stored in the C `size` field. -/
structure sqsh_block where
  data : List Nat
  size : Nat
deriving Repr, DecidableEq, Inhabited

/-- The superblock fields consumed by the decoder core (spec section 3;
`squashfs.h` is not part of the corpus). -/
structure sqsh_super_block where
  inodes : Nat
  block_size : Nat
  inode_table_start : Nat
  root_inode : Nat
deriving Repr, DecidableEq, Inhabited

/-- `struct sqsh_mount`, restricted to what the decoder core reads: the
superblock, the backing image (`img` gives the byte at each absolute
position, `img_len` the image size), and the decompressor plug-in.  The
decompressor gets the compressed bytes and the output capacity and
reports either failure or the produced bytes (the length of the produced
list models the size it writes back through `dst_len_inout`). -/
structure sqsh_mount where
  sb : sqsh_super_block
  img : Nat → Nat
  img_len : Nat
  decompressor : List Nat → Nat → Except Unit (List Nat)

/-- `sqsh_io_read_buf`: positional read of exactly `len` bytes; a short
read (reaching past the end of the image) is reported as failure, which
every caller in the core treats as `SQFS_ERR`. -/
def sqsh_io_read_buf (ump : sqsh_mount) (pos len : Nat) : Option (List Nat) :=
  if pos + len ≤ ump.img_len then
    some ((List.range len).map (fun k => ump.img (pos + k) % 256))
  else none

/-- One byte of a byte image, as a `uint8_t` value. -/
def byteAt (bs : List Nat) (i : Nat) : Nat := bs.getD i 0 % 256

/-- Little-endian 16-bit read (`le16toh` of two stored bytes). -/
def le16_at (bs : List Nat) (i : Nat) : Nat := byteAt bs i + 256 * byteAt bs (i + 1)

/-- Little-endian 32-bit read (`le32toh` of four stored bytes). -/
def le32_at (bs : List Nat) (i : Nat) : Nat := le16_at bs i + 65536 * le16_at bs (i + 2)

/-- Little-endian 64-bit read (`le64toh` of eight stored bytes). -/
def le64_at (bs : List Nat) (i : Nat) : Nat := le32_at bs i + 4294967296 * le32_at bs (i + 4)

/-- `sqsh_block_read` from `squashfs_block.c`: read `size` raw bytes at
`pos`; if `compressed`, run the mount's decompressor with capacity
`outsize` and keep the result (the C code stores the decompressor's
reported output size in `block->size` without any further check),
otherwise keep the raw bytes.  Allocation failure is not modelled. -/
def sqsh_block_read (ump : sqsh_mount) (pos : Nat) (compressed : Bool)
    (size outsize : Nat) : Except Unit sqsh_block :=
  match sqsh_io_read_buf ump pos size with
  | none => .error ()
  | some data =>
    if compressed then
      match ump.decompressor data outsize with
      | .error e => .error e
      | .ok decomp => .ok { data := decomp, size := decomp.length }
    else
      .ok { data := data, size := size }

/-- `sqsh_metadata_read` from `squashfs_block.c`: read the 2-byte
little-endian header at `pos`, split it, and read the block behind it.
On success the returned `Nat` is the out-parameter `*data_size`, the
block's on-disk footprint `2 + size`. -/
def sqsh_metadata_read (ump : sqsh_mount) (pos : Nat) :
    Except Unit (Nat × sqsh_block) :=
  match sqsh_io_read_buf ump pos 2 with
  | none => .error ()
  | some hdrb =>
    match sqsh_block_read ump (pos + 2) (sqsh_metadata_header (le16_at hdrb 0)).1
        (sqsh_metadata_header (le16_at hdrb 0)).2 SQUASHFS_METADATA_SIZE with
    | .error e => .error e
    | .ok block => .ok (2 + (sqsh_metadata_header (le16_at hdrb 0)).2, block)

/-- `sqsh_data_read` from `squashfs_block.c`. -/
def sqsh_data_read (ump : sqsh_mount) (pos hdr : Nat) : Except Unit sqsh_block :=
  sqsh_block_read ump pos (sqsh_data_header hdr).1 (sqsh_data_header hdr).2
    ump.sb.block_size

/-- `size_t` subtraction: the C expression `block->size - cur->offset`
wraps modulo `2 ^ 64`. -/
def size_t_sub (a b : Nat) : Nat := (2 ^ 64 + a % 2 ^ 64 - b % 2 ^ 64) % 2 ^ 64

/-- One iteration of the `while` loop of `sqsh_metadata_get`: read the
block at `pos`, copy `take = min(block->size - cur->offset, size)`
bytes, and either advance the cursor to the next block header (when the
block is exhausted) or bump its offset.  Returns the new running
position, the new cursor, the remaining byte count, and the copied
bytes. -/
def sqsh_metadata_get_step (ump : sqsh_mount) (pos : Nat) (cur : sqsh_block_run)
    (size : Nat) : Except Unit (Nat × sqsh_block_run × Nat × List Nat) :=
  match sqsh_metadata_read ump pos with
  | .error e => .error e
  | .ok (data_size, block) =>
    .ok (pos + data_size,
      (if cur.offset + min (size_t_sub block.size cur.offset) size = block.size then
        { block := pos + data_size, offset := 0 }
      else
        { block := cur.block,
          offset := cur.offset + min (size_t_sub block.size cur.offset) size }),
      size - min (size_t_sub block.size cur.offset) size,
      (block.data.drop cur.offset).take (min (size_t_sub block.size cur.offset) size))

/-- The `while (size > 0)` loop of `sqsh_metadata_get`, with explicit
fuel bounding the number of iterations (the C loop terminates because
every iteration advances `pos` by at least 3 bytes, so the number of
successful reads is bounded by the image length). -/
def sqsh_metadata_get_loop (ump : sqsh_mount) :
    Nat → Nat → sqsh_block_run → Nat → Except Unit (sqsh_block_run × List Nat)
  | 0, _, cur, size => if size = 0 then .ok (cur, []) else .error ()
  | fuel + 1, pos, cur, size =>
    if size = 0 then .ok (cur, [])
    else
      match sqsh_metadata_get_step ump pos cur size with
      | .error e => .error e
      | .ok (pos2, cur2, size2, copied) =>
        match sqsh_metadata_get_loop ump fuel pos2 cur2 size2 with
        | .error e => .error e
        | .ok (curf, rest) => .ok (curf, copied ++ rest)

/-- `sqsh_metadata_get` from `squashfs_block.c`: pull `size` bytes of
logical metadata-stream content starting at the cursor.  The returned
list is the content copied to `buf`; the returned cursor is the final
value of `*cur`. -/
def sqsh_metadata_get (ump : sqsh_mount) (cur : sqsh_block_run) (size : Nat) :
    Except Unit (sqsh_block_run × List Nat) :=
  sqsh_metadata_get_loop ump (ump.img_len + 2) cur.block cur size

theorem metadata_get_loop_size_zero (ump : sqsh_mount) (fuel pos : Nat)
    (cur : sqsh_block_run) :
    sqsh_metadata_get_loop ump fuel pos cur 0 = .ok (cur, []) := by
  cases fuel <;> simp [sqsh_metadata_get_loop]

/-- C10: a `sqsh_metadata_get` call with `size = 0` succeeds without
reading any block and leaves the cursor unchanged. -/
theorem metadata_get_size_zero (ump : sqsh_mount) (cur : sqsh_block_run) :
    sqsh_metadata_get ump cur 0 = .ok (cur, []) := by
  unfold sqsh_metadata_get
  exact metadata_get_loop_size_zero ump _ cur.block cur

/-- C3 (stated on the loop body): whenever an iteration of
`sqsh_metadata_get` reads its block successfully (with on-disk footprint
`ds = 2 + payload size`) and the copy exhausts the block
(`cur.offset + take = block.size`), the cursor it hands on has its
`block` field advanced by exactly `ds` and its `offset` field reset to
`0`. -/
theorem metadata_get_step_exhaust (ump : sqsh_mount) (cur : sqsh_block_run)
    (size ds : Nat) (block : sqsh_block)
    (hread : sqsh_metadata_read ump cur.block = .ok (ds, block))
    (hex : cur.offset + min (size_t_sub block.size cur.offset) size = block.size) :
    (sqsh_metadata_get_step ump cur.block cur size).map (fun r => r.2.1) =
      .ok { block := cur.block + ds, offset := 0 } := by
  unfold sqsh_metadata_get_step
  rw [hread]
  simp [hex, Except.map]

/-- Witness mount for the C3 theorem: one uncompressed 4-byte metadata
block (header `0x8004`) at position 0. -/
def stepMount : sqsh_mount :=
  { sb := default,
    img := fun pos => [0x04, 0x80, 1, 2, 3, 4].getD pos 0,
    img_len := 6,
    decompressor := fun _ _ => .error () }

/-- Witness for the C3 theorem: pulling 4 bytes from cursor `(0, 0)`
exactly exhausts the 4-byte block, whose footprint is 6 bytes. -/
theorem metadata_get_step_exhaust_witness :
    (sqsh_metadata_get_step stepMount 0 { block := 0, offset := 0 } 4).map
        (fun r => r.2.1) =
      .ok { block := 0 + 6, offset := 0 } :=
  metadata_get_step_exhaust stepMount { block := 0, offset := 0 } 4 6
    { data := [1, 2, 3, 4], size := 4 } (by rfl) (by decide)

/-! ### C9: no check of the decompressor-reported output size -/

theorem block_read_compressed_eq (ump : sqsh_mount) (pos size outsize : Nat)
    (bs : List Nat) (hio : sqsh_io_read_buf ump pos size = some bs) :
    sqsh_block_read ump pos true size outsize =
      (ump.decompressor bs outsize).map
        (fun d => { data := d, size := d.length }) := by
  unfold sqsh_block_read
  rw [hio]
  cases h : ump.decompressor bs outsize <;> simp [h, Except.map]

/-- C9 amended: on a compressed metadata block whose raw bytes were read
successfully, `sqsh_block_read` returns exactly the decompressor's
verdict: failure propagates as `SQFS_ERR`, and a success result is
returned as a block of the reported size with no check against the
8192-byte capacity. -/
theorem block_read_no_size_check (ump : sqsh_mount) (pos size : Nat) (bs : List Nat)
    (hio : sqsh_io_read_buf ump pos size = some bs) :
    sqsh_block_read ump pos true size SQUASHFS_METADATA_SIZE =
      (ump.decompressor bs SQUASHFS_METADATA_SIZE).map
        (fun d => { data := d, size := d.length }) :=
  block_read_compressed_eq ump pos size SQUASHFS_METADATA_SIZE bs hio

/-- Counterexample mount for C9: a decompressor that reports success
with 9000 produced bytes, more than the 8192-byte metadata capacity. -/
def oversizeMount : sqsh_mount :=
  { sb := default,
    img := fun _ => 0,
    img_len := 1,
    decompressor := fun _ _ => .ok (List.replicate 9000 0) }

/-- C9 counterexample: with a decompressor reporting an output of 9000
bytes (beyond the 8192-byte capacity), `sqsh_block_read` returns that
block rather than an error, refuting the claim that such a result is
rejected. -/
theorem block_read_oversize_cex :
    (sqsh_block_read oversizeMount 0 true 1 SQUASHFS_METADATA_SIZE).map
        (fun b => b.size) = .ok 9000 ∧
    SQUASHFS_METADATA_SIZE < 9000 := by
  constructor
  · rw [block_read_compressed_eq oversizeMount 0 1 SQUASHFS_METADATA_SIZE [0] rfl]
    have hd : oversizeMount.decompressor [0] SQUASHFS_METADATA_SIZE
        = Except.ok (List.replicate 9000 (0 : Nat)) := rfl
    rw [hd]
    show Except.ok ((List.replicate 9000 (0 : Nat)).length) = Except.ok 9000
    rw [List.length_replicate]
  · decide

/-- Witness for the C9 amended theorem on `oversizeMount`. -/
theorem block_read_no_size_check_witness :
    sqsh_block_read oversizeMount 0 true 1 SQUASHFS_METADATA_SIZE =
      (oversizeMount.decompressor [0] SQUASHFS_METADATA_SIZE).map
        (fun d => { data := d, size := d.length }) :=
  block_read_no_size_check oversizeMount 0 1 [0] (by rfl)

/-! ### Inode decoding (`squashfs_inode.c`) -/

/-- FreeBSD `enum vtype` (from `sys/vnode.h`; `VNON` is the zero value
produced by `memset`). -/
inductive vtype where
  | VNON | VREG | VDIR | VBLK | VCHR | VLNK | VSOCK | VFIFO | VBAD
deriving Repr, DecidableEq, Inhabited

/-- Modelled from the spec: the on-disk inode type codes (`squashfs.h`
is missing from the corpus; these are the standard SquashFS values, nine
kinds in two size classes, spec section 3). -/
def SQUASHFS_DIR_TYPE : Nat := 1

def SQUASHFS_REG_TYPE : Nat := 2

def SQUASHFS_SYMLINK_TYPE : Nat := 3

def SQUASHFS_BLKDEV_TYPE : Nat := 4

def SQUASHFS_CHRDEV_TYPE : Nat := 5

def SQUASHFS_FIFO_TYPE : Nat := 6

def SQUASHFS_SOCKET_TYPE : Nat := 7

def SQUASHFS_LDIR_TYPE : Nat := 8

def SQUASHFS_LREG_TYPE : Nat := 9

def SQUASHFS_LSYMLINK_TYPE : Nat := 10

def SQUASHFS_LBLKDEV_TYPE : Nat := 11

def SQUASHFS_LCHRDEV_TYPE : Nat := 12

def SQUASHFS_LFIFO_TYPE : Nat := 13

def SQUASHFS_LSOCKET_TYPE : Nat := 14

/-- Modelled from the spec: the closed valid range of type codes used by
`sqsh_verify_inode` ("type_code in the closed valid range", spec
section 4.6). -/
def SQUASHFS_TYPE_MIN_VALID : Nat := SQUASHFS_DIR_TYPE

def SQUASHFS_TYPE_MAX_VALID : Nat := SQUASHFS_LSOCKET_TYPE

/-- Modelled from the spec: inode numbers start at 1 (spec section 4.6
and the comment in `sqsh_verify_inode`). -/
def SQUASHFS_INODE_MIN_COUNT : Nat := 1

/-- Modelled from the spec: the xattr "none" sentinel `0xFFFFFFFF`
(spec section 3). -/
def SQUASHFS_INVALID_XATTR : Nat := 0xFFFFFFFF

/-- `struct sqsh_base_inode`: the shared 16-byte base header. -/
structure sqsh_base_inode where
  inode_type : Nat
  mode : Nat
  uid : Nat
  guid : Nat
  mtime : Nat
  inode_number : Nat
deriving Repr, DecidableEq, Inhabited

/-- The `xtra` union of `struct sqsh_inode`.  The C union overlays the
`dev`, `reg` and `dir` members in the same storage; here they are kept
as separate fields (only the member matching the decoded variant is ever
written and read, so the overlay is not observable in the modelled
behaviour). -/
structure sqsh_inode_xtra where
  dev_major : Nat
  dev_minor : Nat
  reg_start_block : Nat
  reg_frag_idx : Nat
  reg_frag_off : Nat
  dir_start_block : Nat
  dir_offset : Nat
  dir_idx_count : Nat
  dir_parent_inode : Nat
deriving Repr, DecidableEq, Inhabited

/-- `struct sqsh_inode` from `squashfs_inode.h` (without the `vnode`
back-pointer, which the decoder core never touches). -/
structure sqsh_inode where
  base : sqsh_base_inode
  nlink : Nat
  xattr : Nat
  size : Nat
  type : vtype
  next : sqsh_block_run
  xtra : sqsh_inode_xtra
deriving Repr, DecidableEq, Inhabited

/-- The all-zero inode produced by `memset(inode, 0, sizeof(*inode))`
(`VNON` is the zero value of `enum vtype`). -/
def sqsh_inode_zeroed : sqsh_inode :=
  { base := { inode_type := 0, mode := 0, uid := 0, guid := 0, mtime := 0,
              inode_number := 0 },
    nlink := 0, xattr := 0, size := 0, type := .VNON,
    next := { block := 0, offset := 0 },
    xtra := { dev_major := 0, dev_minor := 0, reg_start_block := 0,
              reg_frag_idx := 0, reg_frag_off := 0, dir_start_block := 0,
              dir_offset := 0, dir_idx_count := 0, dir_parent_inode := 0 } }

/-- `sqsh_metadata_run_inode`: seed a cursor from a 64-bit inode id and
the inode table base. -/
def sqsh_metadata_run_inode (id base : Nat) : sqsh_block_run :=
  { block := (id >>> 16) + base, offset := id &&& 0xffff }

/-- `sqsh_inode_type`: classify an on-disk type code into a node-kind
tag; unknown codes map to `VBAD`. -/
def sqsh_inode_type (inode_type : Nat) : vtype :=
  if inode_type = SQUASHFS_DIR_TYPE ∨ inode_type = SQUASHFS_LDIR_TYPE then .VDIR
  else if inode_type = SQUASHFS_REG_TYPE ∨ inode_type = SQUASHFS_LREG_TYPE then .VREG
  else if inode_type = SQUASHFS_SYMLINK_TYPE ∨ inode_type = SQUASHFS_LSYMLINK_TYPE then .VLNK
  else if inode_type = SQUASHFS_BLKDEV_TYPE ∨ inode_type = SQUASHFS_LBLKDEV_TYPE then .VBLK
  else if inode_type = SQUASHFS_CHRDEV_TYPE ∨ inode_type = SQUASHFS_LCHRDEV_TYPE then .VCHR
  else if inode_type = SQUASHFS_FIFO_TYPE ∨ inode_type = SQUASHFS_LFIFO_TYPE then .VFIFO
  else if inode_type = SQUASHFS_SOCKET_TYPE ∨ inode_type = SQUASHFS_LSOCKET_TYPE then .VSOCK
  else .VBAD

/-- `sqsh_verify_inode`: validate type code, inode number, and (for the
`SQUASHFS_DIR_TYPE` code only, as written in the C source) the directory
parent inode. -/
def sqsh_verify_inode (ump : sqsh_mount) (inode : sqsh_inode) : Except Unit Unit :=
  if inode.base.inode_type < SQUASHFS_TYPE_MIN_VALID ∨
      SQUASHFS_TYPE_MAX_VALID < inode.base.inode_type then .error ()
  else if inode.base.inode_number < SQUASHFS_INODE_MIN_COUNT ∨
      ump.sb.inodes < inode.base.inode_number then .error ()
  else if inode.base.inode_type = SQUASHFS_DIR_TYPE ∧
      (inode.xtra.dir_parent_inode < SQUASHFS_INODE_MIN_COUNT ∨
       ump.sb.inodes + 1 < inode.xtra.dir_parent_inode) then .error ()
  else .ok ()

/-- `sqsh_root_inode`. -/
def sqsh_root_inode (ump : sqsh_mount) : Nat := ump.sb.root_inode

/-- Decoding the 16-byte base header: the combination of reading the
on-disk struct image and `swapendian_base_inode`'s per-field
little-endian conversion. -/
def sqsh_decode_base_inode (bs : List Nat) : sqsh_base_inode :=
  { inode_type := le16_at bs 0, mode := le16_at bs 2, uid := le16_at bs 4,
    guid := le16_at bs 6, mtime := le32_at bs 8, inode_number := le32_at bs 12 }

/-- `sqsh_init_reg_inode`: pull the 32-byte `struct sqsh_reg_inode`
(base header re-read plus `start_block`, `fragment`, `offset`,
`file_size`, each `u32`; layout modelled from the spec, section 6, as
`squashfs.h` is missing from the corpus) through `inode->next`. -/
def sqsh_init_reg_inode (ump : sqsh_mount) (inode : sqsh_inode) :
    Except Unit sqsh_inode :=
  match sqsh_metadata_get ump inode.next 32 with
  | .error e => .error e
  | .ok (next2, bs) =>
    .ok { inode with
      next := next2, nlink := 1, size := le32_at bs 28,
      xtra := { inode.xtra with
        reg_start_block := le32_at bs 16, reg_frag_idx := le32_at bs 20,
        reg_frag_off := le32_at bs 24 } }

/-- `sqsh_init_lreg_inode`: 56-byte `struct sqsh_lreg_inode` (base, then
`start_block u64`, `file_size u64`, `sparse u64`, `nlink u32`,
`fragment u32`, `offset u32`, `xattr u32`). -/
def sqsh_init_lreg_inode (ump : sqsh_mount) (inode : sqsh_inode) :
    Except Unit sqsh_inode :=
  match sqsh_metadata_get ump inode.next 56 with
  | .error e => .error e
  | .ok (next2, bs) =>
    .ok { inode with
      next := next2, nlink := le32_at bs 40,
      size := le64_at bs 24, xattr := le32_at bs 52,
      xtra := { inode.xtra with
        reg_start_block := le64_at bs 16, reg_frag_idx := le32_at bs 44,
        reg_frag_off := le32_at bs 48 } }

/-- `sqsh_init_dir_inode`: 32-byte `struct sqsh_dir_inode` (base, then
`start_block u32`, `nlink u32`, `file_size u16`, `offset u16`,
`parent_inode u32`).  `idx_count` is set to 0 as in the C source. -/
def sqsh_init_dir_inode (ump : sqsh_mount) (inode : sqsh_inode) :
    Except Unit sqsh_inode :=
  match sqsh_metadata_get ump inode.next 32 with
  | .error e => .error e
  | .ok (next2, bs) =>
    .ok { inode with
      next := next2, nlink := le32_at bs 20, size := le16_at bs 24,
      xtra := { inode.xtra with
        dir_start_block := le32_at bs 16, dir_offset := le16_at bs 26,
        dir_idx_count := 0, dir_parent_inode := le32_at bs 28 } }

/-- `sqsh_init_ldir_inode`: 40-byte `struct sqsh_ldir_inode` (base, then
`nlink u32`, `file_size u32`, `start_block u32`, `parent_inode u32`,
`i_count u16`, `offset u16`, `xattr u32`). -/
def sqsh_init_ldir_inode (ump : sqsh_mount) (inode : sqsh_inode) :
    Except Unit sqsh_inode :=
  match sqsh_metadata_get ump inode.next 40 with
  | .error e => .error e
  | .ok (next2, bs) =>
    .ok { inode with
      next := next2, nlink := le32_at bs 16,
      size := le32_at bs 20, xattr := le32_at bs 36,
      xtra := { inode.xtra with
        dir_start_block := le32_at bs 24, dir_offset := le16_at bs 34,
        dir_idx_count := le16_at bs 32, dir_parent_inode := le32_at bs 28 } }

/-- `sqsh_init_symlink_inode`: 24-byte `struct sqsh_symlink_inode`
(base, then `nlink u32`, `symlink_size u32`); the target bytes are left
in the stream. -/
def sqsh_init_symlink_inode (ump : sqsh_mount) (inode : sqsh_inode) :
    Except Unit sqsh_inode :=
  match sqsh_metadata_get ump inode.next 24 with
  | .error e => .error e
  | .ok (next2, bs) =>
    .ok { inode with
      next := next2, nlink := le32_at bs 16, size := le32_at bs 20 }

/-- `sqsh_init_dev_inode`: 24-byte `struct sqsh_dev_inode` (base, then
`nlink u32`, `rdev u32`); major/minor are unpacked from `rdev`. -/
def sqsh_init_dev_inode (ump : sqsh_mount) (inode : sqsh_inode) :
    Except Unit sqsh_inode :=
  match sqsh_metadata_get ump inode.next 24 with
  | .error e => .error e
  | .ok (next2, bs) =>
    .ok { inode with
      next := next2, size := 0, nlink := le32_at bs 16,
      xtra := { inode.xtra with
        dev_major := sqsh_dev_major (le32_at bs 20),
        dev_minor := sqsh_dev_minor (le32_at bs 20) } }

/-- `sqsh_init_ldev_inode`: 28-byte `struct sqsh_ldev_inode` (base, then
`nlink u32`, `rdev u32`, `xattr u32`). -/
def sqsh_init_ldev_inode (ump : sqsh_mount) (inode : sqsh_inode) :
    Except Unit sqsh_inode :=
  match sqsh_metadata_get ump inode.next 28 with
  | .error e => .error e
  | .ok (next2, bs) =>
    .ok { inode with
      next := next2, size := 0, nlink := le32_at bs 16,
      xattr := le32_at bs 24,
      xtra := { inode.xtra with
        dev_major := sqsh_dev_major (le32_at bs 20),
        dev_minor := sqsh_dev_minor (le32_at bs 20) } }

/-- `sqsh_init_ipc_inode`: 20-byte `struct sqsh_ipc_inode` (base, then
`nlink u32`; spec section 3: "IPC: nlink"). -/
def sqsh_init_ipc_inode (ump : sqsh_mount) (inode : sqsh_inode) :
    Except Unit sqsh_inode :=
  match sqsh_metadata_get ump inode.next 20 with
  | .error e => .error e
  | .ok (next2, bs) =>
    .ok { inode with next := next2, size := 0, nlink := le32_at bs 16 }

/-- `sqsh_init_lipc_inode`: 24-byte `struct sqsh_lipc_inode` (base, then
`nlink u32`, `xattr u32`). -/
def sqsh_init_lipc_inode (ump : sqsh_mount) (inode : sqsh_inode) :
    Except Unit sqsh_inode :=
  match sqsh_metadata_get ump inode.next 24 with
  | .error e => .error e
  | .ok (next2, bs) =>
    .ok { inode with
      next := next2, size := 0, nlink := le32_at bs 16,
      xattr := le32_at bs 20 }

/-- Lines 160..170 of `sqsh_get_inode`: zero the output, set the xattr
sentinel, seed the cursor from the id, snapshot it into `inode->next`,
pull the 16-byte base header through a local copy of the cursor, decode
it and classify the type code. -/
def sqsh_get_inode_base (ump : sqsh_mount) (id : Nat) : Except Unit sqsh_inode :=
  match sqsh_metadata_get ump
      (sqsh_metadata_run_inode id ump.sb.inode_table_start) 16 with
  | .error e => .error e
  | .ok (_, bs) =>
    .ok { sqsh_inode_zeroed with
      xattr := SQUASHFS_INVALID_XATTR,
      next := sqsh_metadata_run_inode id ump.sb.inode_table_start,
      base := sqsh_decode_base_inode bs,
      type := sqsh_inode_type (sqsh_decode_base_inode bs).inode_type }

/-- The `switch (inode->base.inode_type)` of `sqsh_get_inode`,
dispatching to the variant decoders; unknown type codes hit the
`default` arm and fail. -/
def sqsh_get_inode_dispatch (ump : sqsh_mount) (inode : sqsh_inode) :
    Except Unit sqsh_inode :=
  if inode.base.inode_type = SQUASHFS_REG_TYPE then
    sqsh_init_reg_inode ump inode
  else if inode.base.inode_type = SQUASHFS_LREG_TYPE then
    sqsh_init_lreg_inode ump inode
  else if inode.base.inode_type = SQUASHFS_DIR_TYPE then
    sqsh_init_dir_inode ump inode
  else if inode.base.inode_type = SQUASHFS_LDIR_TYPE then
    sqsh_init_ldir_inode ump inode
  else if inode.base.inode_type = SQUASHFS_SYMLINK_TYPE ∨
      inode.base.inode_type = SQUASHFS_LSYMLINK_TYPE then
    sqsh_init_symlink_inode ump inode
  else if inode.base.inode_type = SQUASHFS_BLKDEV_TYPE ∨
      inode.base.inode_type = SQUASHFS_CHRDEV_TYPE then
    sqsh_init_dev_inode ump inode
  else if inode.base.inode_type = SQUASHFS_LBLKDEV_TYPE ∨
      inode.base.inode_type = SQUASHFS_LCHRDEV_TYPE then
    sqsh_init_ldev_inode ump inode
  else if inode.base.inode_type = SQUASHFS_SOCKET_TYPE ∨
      inode.base.inode_type = SQUASHFS_FIFO_TYPE then
    sqsh_init_ipc_inode ump inode
  else if inode.base.inode_type = SQUASHFS_LSOCKET_TYPE ∨
      inode.base.inode_type = SQUASHFS_LFIFO_TYPE then
    sqsh_init_lipc_inode ump inode
  else .error ()

/-- `sqsh_get_inode`: resolve an inode id to a decoded inode, or fail. -/
def sqsh_get_inode (ump : sqsh_mount) (id : Nat) : Except Unit sqsh_inode :=
  match sqsh_get_inode_base ump id with
  | .error e => .error e
  | .ok inode1 =>
    match sqsh_get_inode_dispatch ump inode1 with
    | .error e => .error e
    | .ok inode2 =>
      match sqsh_verify_inode ump inode2 with
      | .error e => .error e
      | .ok _ => .ok inode2

/-! ### The variant decoders never touch `base` or `type` -/

theorem sqsh_init_reg_inode_preserves (ump : sqsh_mount) (i i' : sqsh_inode)
    (h : sqsh_init_reg_inode ump i = .ok i') :
    i'.base = i.base ∧ i'.type = i.type := by
  unfold sqsh_init_reg_inode at h
  cases h2 : sqsh_metadata_get ump i.next 32 with
  | error e => rw [h2] at h; exact absurd h (by simp)
  | ok p =>
    obtain ⟨next2, bs⟩ := p
    rw [h2] at h
    cases Except.ok.inj h
    exact ⟨rfl, rfl⟩

theorem sqsh_init_lreg_inode_preserves (ump : sqsh_mount) (i i' : sqsh_inode)
    (h : sqsh_init_lreg_inode ump i = .ok i') :
    i'.base = i.base ∧ i'.type = i.type := by
  unfold sqsh_init_lreg_inode at h
  cases h2 : sqsh_metadata_get ump i.next 56 with
  | error e => rw [h2] at h; exact absurd h (by simp)
  | ok p =>
    obtain ⟨next2, bs⟩ := p
    rw [h2] at h
    cases Except.ok.inj h
    exact ⟨rfl, rfl⟩

theorem sqsh_init_dir_inode_preserves (ump : sqsh_mount) (i i' : sqsh_inode)
    (h : sqsh_init_dir_inode ump i = .ok i') :
    i'.base = i.base ∧ i'.type = i.type := by
  unfold sqsh_init_dir_inode at h
  cases h2 : sqsh_metadata_get ump i.next 32 with
  | error e => rw [h2] at h; exact absurd h (by simp)
  | ok p =>
    obtain ⟨next2, bs⟩ := p
    rw [h2] at h
    cases Except.ok.inj h
    exact ⟨rfl, rfl⟩

theorem sqsh_init_ldir_inode_preserves (ump : sqsh_mount) (i i' : sqsh_inode)
    (h : sqsh_init_ldir_inode ump i = .ok i') :
    i'.base = i.base ∧ i'.type = i.type := by
  unfold sqsh_init_ldir_inode at h
  cases h2 : sqsh_metadata_get ump i.next 40 with
  | error e => rw [h2] at h; exact absurd h (by simp)
  | ok p =>
    obtain ⟨next2, bs⟩ := p
    rw [h2] at h
    cases Except.ok.inj h
    exact ⟨rfl, rfl⟩

theorem sqsh_init_symlink_inode_preserves (ump : sqsh_mount) (i i' : sqsh_inode)
    (h : sqsh_init_symlink_inode ump i = .ok i') :
    i'.base = i.base ∧ i'.type = i.type := by
  unfold sqsh_init_symlink_inode at h
  cases h2 : sqsh_metadata_get ump i.next 24 with
  | error e => rw [h2] at h; exact absurd h (by simp)
  | ok p =>
    obtain ⟨next2, bs⟩ := p
    rw [h2] at h
    cases Except.ok.inj h
    exact ⟨rfl, rfl⟩

theorem sqsh_init_dev_inode_preserves (ump : sqsh_mount) (i i' : sqsh_inode)
    (h : sqsh_init_dev_inode ump i = .ok i') :
    i'.base = i.base ∧ i'.type = i.type := by
  unfold sqsh_init_dev_inode at h
  cases h2 : sqsh_metadata_get ump i.next 24 with
  | error e => rw [h2] at h; exact absurd h (by simp)
  | ok p =>
    obtain ⟨next2, bs⟩ := p
    rw [h2] at h
    cases Except.ok.inj h
    exact ⟨rfl, rfl⟩

theorem sqsh_init_ldev_inode_preserves (ump : sqsh_mount) (i i' : sqsh_inode)
    (h : sqsh_init_ldev_inode ump i = .ok i') :
    i'.base = i.base ∧ i'.type = i.type := by
  unfold sqsh_init_ldev_inode at h
  cases h2 : sqsh_metadata_get ump i.next 28 with
  | error e => rw [h2] at h; exact absurd h (by simp)
  | ok p =>
    obtain ⟨next2, bs⟩ := p
    rw [h2] at h
    cases Except.ok.inj h
    exact ⟨rfl, rfl⟩

theorem sqsh_init_ipc_inode_preserves (ump : sqsh_mount) (i i' : sqsh_inode)
    (h : sqsh_init_ipc_inode ump i = .ok i') :
    i'.base = i.base ∧ i'.type = i.type := by
  unfold sqsh_init_ipc_inode at h
  cases h2 : sqsh_metadata_get ump i.next 20 with
  | error e => rw [h2] at h; exact absurd h (by simp)
  | ok p =>
    obtain ⟨next2, bs⟩ := p
    rw [h2] at h
    cases Except.ok.inj h
    exact ⟨rfl, rfl⟩

theorem sqsh_init_lipc_inode_preserves (ump : sqsh_mount) (i i' : sqsh_inode)
    (h : sqsh_init_lipc_inode ump i = .ok i') :
    i'.base = i.base ∧ i'.type = i.type := by
  unfold sqsh_init_lipc_inode at h
  cases h2 : sqsh_metadata_get ump i.next 24 with
  | error e => rw [h2] at h; exact absurd h (by simp)
  | ok p =>
    obtain ⟨next2, bs⟩ := p
    rw [h2] at h
    cases Except.ok.inj h
    exact ⟨rfl, rfl⟩

theorem sqsh_get_inode_dispatch_preserves (ump : sqsh_mount) (i i' : sqsh_inode)
    (h : sqsh_get_inode_dispatch ump i = .ok i') :
    i'.base = i.base ∧ i'.type = i.type := by
  unfold sqsh_get_inode_dispatch at h
  split_ifs at h
  · exact sqsh_init_reg_inode_preserves ump i i' h
  · exact sqsh_init_lreg_inode_preserves ump i i' h
  · exact sqsh_init_dir_inode_preserves ump i i' h
  · exact sqsh_init_ldir_inode_preserves ump i i' h
  · exact sqsh_init_symlink_inode_preserves ump i i' h
  · exact sqsh_init_dev_inode_preserves ump i i' h
  · exact sqsh_init_ldev_inode_preserves ump i i' h
  · exact sqsh_init_ipc_inode_preserves ump i i' h
  · exact sqsh_init_lipc_inode_preserves ump i i' h

theorem sqsh_get_inode_base_fields (ump : sqsh_mount) (id : Nat) (i1 : sqsh_inode)
    (h : sqsh_get_inode_base ump id = .ok i1) :
    i1.type = sqsh_inode_type i1.base.inode_type ∧
    i1.next = sqsh_metadata_run_inode id ump.sb.inode_table_start := by
  unfold sqsh_get_inode_base at h
  cases h2 : sqsh_metadata_get ump
      (sqsh_metadata_run_inode id ump.sb.inode_table_start) 16 with
  | error e => rw [h2] at h; exact absurd h (by simp)
  | ok p =>
    obtain ⟨c, bs⟩ := p
    rw [h2] at h
    cases Except.ok.inj h
    exact ⟨rfl, rfl⟩

theorem sqsh_verify_inode_ok_bounds (ump : sqsh_mount) (i : sqsh_inode)
    (h : sqsh_verify_inode ump i = .ok ()) :
    SQUASHFS_TYPE_MIN_VALID ≤ i.base.inode_type ∧
    i.base.inode_type ≤ SQUASHFS_TYPE_MAX_VALID ∧
    SQUASHFS_INODE_MIN_COUNT ≤ i.base.inode_number ∧
    i.base.inode_number ≤ ump.sb.inodes := by
  unfold sqsh_verify_inode at h
  split_ifs at h with hc1 hc2 hc3
  simp only [SQUASHFS_TYPE_MIN_VALID, SQUASHFS_TYPE_MAX_VALID,
    SQUASHFS_INODE_MIN_COUNT, SQUASHFS_DIR_TYPE, SQUASHFS_LSOCKET_TYPE]
    at hc1 hc2 ⊢
  refine ⟨?_, ?_, ?_, ?_⟩ <;> omega

theorem sqsh_inode_type_ne_vbad (t : Nat) (h1 : SQUASHFS_TYPE_MIN_VALID ≤ t)
    (h2 : t ≤ SQUASHFS_TYPE_MAX_VALID) : sqsh_inode_type t ≠ vtype.VBAD := by
  simp only [SQUASHFS_TYPE_MIN_VALID, SQUASHFS_DIR_TYPE] at h1
  simp only [SQUASHFS_TYPE_MAX_VALID, SQUASHFS_LSOCKET_TYPE] at h2
  interval_cases t <;> decide

/-- C1: every inode that `sqsh_get_inode` returns with `SQFS_OK` has its
`inode_number` in the closed range `[1, superblock.inodes]` and a
node-kind tag different from `VBAD`. -/
theorem get_inode_valid (ump : sqsh_mount) (id : Nat) (inode : sqsh_inode)
    (h : sqsh_get_inode ump id = .ok inode) :
    1 ≤ inode.base.inode_number ∧ inode.base.inode_number ≤ ump.sb.inodes ∧
    inode.type ≠ vtype.VBAD := by
  unfold sqsh_get_inode at h
  split at h
  next e => exact absurd h (by simp)
  next i1 h1 =>
    split at h
    next e => exact absurd h (by simp)
    next i2 h2 =>
      split at h
      next e => exact absurd h (by simp)
      next u h3 =>
        cases u
        cases Except.ok.inj h
        have hb := sqsh_verify_inode_ok_bounds ump inode h3
        have hp := sqsh_get_inode_dispatch_preserves ump i1 inode h2
        have hbase := sqsh_get_inode_base_fields ump id i1 h1
        have htype : inode.type = sqsh_inode_type inode.base.inode_type := by
          rw [hp.2, hbase.1, hp.1]
        refine ⟨?_, hb.2.2.2, ?_⟩
        · have h4 := hb.2.2.1
          simpa [SQUASHFS_INODE_MIN_COUNT] using h4
        · rw [htype]
          exact sqsh_inode_type_ne_vbad _ hb.1 hb.2.1

deriving instance DecidableEq for Except

/-- A concrete mount for the end-to-end claims: the inode table starts
at `0x1000` and holds one uncompressed 32-byte metadata block
(header `0x8020`) containing a 24-byte `BLKDEV` inode record
(`inode_type = 4`, `inode_number = 1`, `nlink = 1`, `rdev = 0`) followed
by 8 bytes of padding. -/
def devMount : sqsh_mount :=
  { sb := { inodes := 1, block_size := 0x20000, inode_table_start := 0x1000,
            root_inode := 0 },
    img := fun pos =>
      if pos < 0x1000 then 0
      else [0x20, 0x80,
        4, 0, 0, 0, 0, 0, 0, 0, 0, 0, 0, 0, 1, 0, 0, 0,
        1, 0, 0, 0, 0, 0, 0, 0, 0, 0, 0, 0, 0, 0, 0, 0].getD (pos - 0x1000) 0,
    img_len := 0x1000 + 34,
    decompressor := fun _ _ => .error () }

/-- The inode that `sqsh_get_inode devMount 0` returns. -/
def devMountInode : sqsh_inode :=
  ((sqsh_get_inode devMount 0).toOption).getD default

/-- Witness for the C1 theorem on `devMount` at id 0. -/
theorem get_inode_valid_witness :
    1 ≤ devMountInode.base.inode_number ∧
    devMountInode.base.inode_number ≤ devMount.sb.inodes ∧
    devMountInode.type ≠ vtype.VBAD :=
  get_inode_valid devMount 0 devMountInode rfl

/-- C7 counterexample: on `devMount` with `id = 0` and
`inode_table_start = 0x1000`, `inode.next` equals `(0x1000, 0)` right
after the base-header pull (it is the snapshot taken before the pull)
and `(0x1000, 24)` after the full call — never `(0x1000, 16)`. -/
theorem get_inode_next_cex :
    (sqsh_get_inode_base devMount 0).map (fun i => i.next) =
      .ok { block := 0x1000, offset := 0 } ∧
    (sqsh_get_inode devMount 0).map (fun i => i.next) =
      .ok { block := 0x1000, offset := 24 } ∧
    ({ block := 0x1000, offset := 0 } : sqsh_block_run) ≠
      { block := 0x1000, offset := 16 } ∧
    ({ block := 0x1000, offset := 24 } : sqsh_block_run) ≠
      { block := 0x1000, offset := 16 } := by
  refine ⟨by decide, by decide, by decide, by decide⟩

/-- C7 amended: on `devMount` with `id = 0` the seeded cursor is
`(0x1000, 0)`; the base-header pull consumes exactly 16 bytes and leaves
the local cursor at `(0x1000, 16)` (no block boundary crossed); but
`inode.next` after the base stage is the record-start snapshot
`(0x1000, 0)`, and after the variant decode it points just past the full
24-byte record, at `(0x1000, 24)`. -/
theorem get_inode_seed_and_next :
    sqsh_metadata_run_inode 0 devMount.sb.inode_table_start =
      { block := 0x1000, offset := 0 } ∧
    sqsh_metadata_get devMount { block := 0x1000, offset := 0 } 16 =
      .ok ({ block := 0x1000, offset := 16 },
        [4, 0, 0, 0, 0, 0, 0, 0, 0, 0, 0, 0, 1, 0, 0, 0]) ∧
    (sqsh_get_inode_base devMount 0).map (fun i => i.next) =
      .ok { block := 0x1000, offset := 0 } ∧
    (sqsh_get_inode devMount 0).map (fun i => i.next) =
      .ok { block := 0x1000, offset := 24 } := by
  refine ⟨by decide, by decide, by decide, by decide⟩

/-- A concrete mount holding one uncompressed 40-byte metadata block
(header `0x8028`) with a single `LDIR` inode record (`inode_type = 8`,
`inode_number = 1`, `parent_inode = 3`) on a superblock with
`inodes = 1`, so `parent_inode = inodes + 2`. -/
def ldirMount : sqsh_mount :=
  { sb := { inodes := 1, block_size := 0x20000, inode_table_start := 0,
            root_inode := 0 },
    img := fun pos => [0x28, 0x80,
      8, 0, 0, 0, 0, 0, 0, 0, 0, 0, 0, 0, 1, 0, 0, 0,
      2, 0, 0, 0, 3, 0, 0, 0, 0, 0, 0, 0, 3, 0, 0, 0,
      0, 0, 0, 0, 0xFF, 0xFF, 0xFF, 0xFF].getD pos 0,
    img_len := 42,
    decompressor := fun _ _ => .error () }

/-- C4: evaluation of the code at the failing input.  `sqsh_verify_inode`
checks `parent_inode` only for the `SQUASHFS_DIR_TYPE` code, so this
extended-directory (`LDIR`) inode with `parent_inode = inodes + 2 = 3`
is returned with `SQFS_OK` instead of being rejected. -/
theorem ldir_parent_unchecked :
    (sqsh_get_inode ldirMount 0).map (fun i => (i.type, i.xtra.dir_parent_inode)) =
      .ok (vtype.VDIR, 3) ∧
    ldirMount.sb.inodes + 2 = 3 := by
  refine ⟨by decide, by decide⟩

end Squashfs
